import Mathlib

/-!
Verification of the Lettr n8n connector node (`nodes/Lettr/Lettr.node.ts`,
`credentials/LettrApi.credentials.ts`).

The node is modelled by a shallow embedding: JSON values are an inductive
`Json`, the HTTP upstream is an oracle `Nat → Except String Json` giving the
response (or transport error) to the n-th request an item issues, and the
environment's `JSON.parse` is an oracle `String → Option Json`.  Each
operation handler returns the list of requests it issued together with either
its output records or the error it raised, mirroring `Lettr.execute` item by
item.  The unbounded `do/while` pagination loops of the source become
fuel-indexed recursions returning `none` when the fuel runs out.
-/

namespace Lettr

/-- JSON values (TypeScript `IDataObject` trees).  `null` also stands for
JavaScript `undefined` / an absent object key; objects are association lists
with distinct keys, in insertion order. -/
inductive Json where
  | null : Json
  | str (s : String) : Json
  | num (n : Int) : Json
  | bool (b : Bool) : Json
  | arr (xs : List Json) : Json
  | obj (fields : List (String × Json)) : Json
deriving Repr

/-- JavaScript property access `j[k]`: looks `k` up in an object, yielding
`null` (= `undefined`) when the key is absent or `j` is not an object. -/
def Json.get (j : Json) (k : String) : Json :=
  match j with
  | Json.obj fields =>
    match fields.find? (fun f => f.1 = k) with
    | some f => f.2
    | none => Json.null
  | _ => Json.null

/-- JavaScript truthiness of a value (`if (x)`, `while (x)`). -/
def jsTruthy : Json → Bool
  | Json.null => false
  | Json.str s => s ≠ ""
  | Json.num n => n ≠ 0
  | Json.bool b => b
  | Json.arr _ => true
  | Json.obj _ => true

/-- Set key `k` to `v` in an association list: an existing key keeps its
position and gets the new value; a new key is appended. -/
def setField (k : String) (v : Json) : List (String × Json) → List (String × Json)
  | [] => [(k, v)]
  | (k', v') :: rest =>
    if k' = k then (k', v) :: rest else (k', v') :: setField k v rest

/-- `{...o, k: v}`: object spread followed by a key override.  Spreading a
non-object (never hit by well-formed API responses) contributes no fields. -/
def Json.objSet (j : Json) (k : String) (v : Json) : Json :=
  match j with
  | Json.obj fields => Json.obj (setField k v fields)
  | _ => Json.obj [(k, v)]

/-- JavaScript `value.split(regex)` with a character-class regex, over the
character list: each separator character ends the current field, so
consecutive separators yield empty fields, and a leading or trailing
separator yields a leading or trailing empty field (`""` splits to `[""]`). -/
def splitChars (p : Char → Bool) : List Char → List (List Char)
  | [] => [[]]
  | c :: cs =>
    if p c then [] :: splitChars p cs
    else
      match splitChars p cs with
      | [] => [[c]]
      | fld :: rest => (c :: fld) :: rest

/-- JavaScript `String.prototype.trim` over the character list: strip leading
and trailing whitespace (the ASCII whitespace of the addresses at hand). -/
def jsTrim (s : List Char) : List Char :=
  ((s.dropWhile Char.isWhitespace).reverse.dropWhile Char.isWhitespace).reverse

/-- `splitRecipientList` (Lettr.node.ts): split on `,`, `;` or newline, trim
each token, drop empty tokens. -/
def splitRecipientList (value : String) : List String :=
  (((splitChars (fun c => c = ',' || c = '\n' || c = ';') value.toList).map
      (fun entry => String.mk (jsTrim entry))).filter
    (fun entry => entry.length > 0))

/-- `getResponseData`: `(response.data as IDataObject) ?? {}`. -/
def getResponseData (response : Json) : Json :=
  match response.get "data" with
  | Json.null => Json.obj []
  | d => d

/-- `getResponseList`: the `key` field of the data object when it is an
array, else `[]`. -/
def getResponseList (response : Json) (key : String) : List Json :=
  match (getResponseData response).get key with
  | Json.arr values => values
  | _ => []

/-- `getPagination`: `(data.pagination as IDataObject) ?? {}`. -/
def getPagination (response : Json) : Json :=
  match (getResponseData response).get "pagination" with
  | Json.null => Json.obj []
  | p => p

/-- Errors raised by the node: `NodeOperationError` for validation failures,
`NodeApiError` wrapping a transport failure.  Both carry the originating
item's index (the `itemIndex` option in the source) and a message (for
`NodeApiError` the message n8n derives from the wrapped cause, modelled as the
transport error's string). -/
inductive NodeError where
  | operation (message : String) (itemIndex : Nat)
  | api (message : String) (itemIndex : Nat)
deriving Repr

/-- The `.message` of the underlying `Error` used by the `continueOnFail`
catch block. -/
def NodeError.message : NodeError → String
  | NodeError.operation m _ => m
  | NodeError.api m _ => m

/-- One HTTP request issued through `lettrApiRequest`.  Empty `body`/`qs`
lists correspond to the deleted (omitted) options of the source. -/
structure Request where
  method : String
  endpoint : String
  body : List (String × Json)
  qs : List (String × Json)
deriving Repr

/-- The upstream HTTP server, as an oracle giving the response (or the
transport error) to the n-th request issued while processing one item. -/
def Server : Type := Nat → Except String Json

/-- `parseOptionalJson` (Lettr.node.ts): apply the environment's `JSON.parse`
(the `jsonParse` oracle), raising a `NodeOperationError` naming the field and
the item when it fails. -/
def parseOptionalJson (jsonParse : String → Option Json) (value : String)
    (fieldName : String) (itemIndex : Nat) : Except NodeError Json :=
  match jsonParse value with
  | some v => Except.ok v
  | none => Except.error (NodeError.operation
      ("\"" ++ fieldName ++ "\" must be valid JSON when provided.") itemIndex)

/-- The `additionalFields` collection of the email send operation.  Absent
keys are modelled by the UI defaults `""` / `0`; both are JavaScript-falsy,
exactly like the `undefined` of a key missing from the collection. -/
structure AdditionalFields where
  fromName : String := ""
  replyTo : String := ""
  replyToName : String := ""
  ampHtml : String := ""
  projectId : Int := 0
  templateVersion : Int := 0
  campaignId : Int := 0
  cc : String := ""
  bcc : String := ""
  metadataJson : String := ""
  substitutionDataJson : String := ""
  optionsJson : String := ""
  attachmentsJson : String := ""

/-- Parameters of the email send operation (`from` is `fromEmail` here since
`from` is a Lean keyword). -/
structure EmailSendParams where
  fromEmail : String
  toInput : String
  subject : String
  html : String
  text : String
  templateSlug : String
  additionalFields : AdditionalFields

/-- The send body assembly of `Lettr.execute` (after the two validation
checks): the required `from`/`to`/`subject` fields followed by each optional
field in source order, attached only when its input is truthy; the four
free-text JSON fields go through `parseOptionalJson` and may raise. -/
def buildSendBody (jsonParse : String → Option Json) (p : EmailSendParams)
    (toList : List String) (itemIndex : Nat) : Except NodeError (List (String × Json)) := do
  let af := p.additionalFields
  let body : List (String × Json) :=
    [("from", Json.str p.fromEmail), ("to", Json.arr (toList.map Json.str)),
     ("subject", Json.str p.subject)]
  let body := body ++ (if p.html ≠ "" then [("html", Json.str p.html)] else [])
  let body := body ++ (if p.text ≠ "" then [("text", Json.str p.text)] else [])
  let body := body ++
    (if p.templateSlug ≠ "" then [("template_slug", Json.str p.templateSlug)] else [])
  let body := body ++ (if af.fromName ≠ "" then [("from_name", Json.str af.fromName)] else [])
  let body := body ++ (if af.replyTo ≠ "" then [("reply_to", Json.str af.replyTo)] else [])
  let body := body ++
    (if af.replyToName ≠ "" then [("reply_to_name", Json.str af.replyToName)] else [])
  let body := body ++ (if af.ampHtml ≠ "" then [("amp_html", Json.str af.ampHtml)] else [])
  let body := body ++ (if af.projectId ≠ 0 then [("project_id", Json.num af.projectId)] else [])
  let body := body ++
    (if af.templateVersion ≠ 0 then [("template_version", Json.num af.templateVersion)] else [])
  let body := body ++ (if af.campaignId ≠ 0 then [("campaign_id", Json.num af.campaignId)] else [])
  let body := body ++
    (if af.cc ≠ "" then [("cc", Json.arr ((splitRecipientList af.cc).map Json.str))] else [])
  let body := body ++
    (if af.bcc ≠ "" then [("bcc", Json.arr ((splitRecipientList af.bcc).map Json.str))] else [])
  let body ←
    if af.metadataJson ≠ "" then do
      let v ← parseOptionalJson jsonParse af.metadataJson "Metadata (JSON)" itemIndex
      pure (body ++ [("metadata", v)])
    else pure body
  let body ←
    if af.substitutionDataJson ≠ "" then do
      let v ← parseOptionalJson jsonParse af.substitutionDataJson
        "Substitution Data (JSON)" itemIndex
      pure (body ++ [("substitution_data", v)])
    else pure body
  let body ←
    if af.optionsJson ≠ "" then do
      let v ← parseOptionalJson jsonParse af.optionsJson "Options (JSON)" itemIndex
      pure (body ++ [("options", v)])
    else pure body
  let body ←
    if af.attachmentsJson ≠ "" then do
      let v ← parseOptionalJson jsonParse af.attachmentsJson "Attachments (JSON)" itemIndex
      pure (body ++ [("attachments", v)])
    else pure body
  pure body

/-- One output record (`INodeExecutionData`): a JSON payload paired with the
originating item's index. -/
structure Output where
  json : Json
  pairedItem : Nat
deriving Repr

/-- The email send branch of `Lettr.execute`: the two validation checks, the
body assembly, then a single `POST /emails`.  The returned list is the
requests actually issued. -/
def emailSend (jsonParse : String → Option Json) (server : Server)
    (p : EmailSendParams) (itemIndex : Nat) :
    List Request × Except NodeError (List Output) :=
  if p.html = "" ∧ p.text = "" ∧ p.templateSlug = "" then
    ([], Except.error (NodeError.operation
      "Provide at least one of: HTML, Text, or Template Slug." itemIndex))
  else
    let toList := splitRecipientList p.toInput
    if toList.isEmpty then
      ([], Except.error (NodeError.operation
        "\"To\" must contain at least one valid recipient." itemIndex))
    else
      match buildSendBody jsonParse p toList itemIndex with
      | Except.error e => ([], Except.error e)
      | Except.ok body =>
        match server 0 with
        | Except.error msg =>
          ([⟨"POST", "/emails", body, []⟩], Except.error (NodeError.api msg itemIndex))
        | Except.ok response =>
          ([⟨"POST", "/emails", body, []⟩], Except.ok [Output.mk response itemIndex])

/-- The email get branch of `Lettr.execute`: one GET of the request by ID. -/
def emailGet (server : Server) (requestId : String) (itemIndex : Nat) :
    List Request × Except NodeError (List Output) :=
  match server 0 with
  | Except.error msg =>
    ([⟨"GET", "/emails/" ++ requestId, [], []⟩], Except.error (NodeError.api msg itemIndex))
  | Except.ok response =>
    ([⟨"GET", "/emails/" ++ requestId, [], []⟩], Except.ok [Output.mk response itemIndex])

/-- Parameters of the email getAll operation. -/
structure EmailGetAllParams where
  returnAll : Bool
  simplify : Bool := true
  limit : Int := 50
  recipients : String := ""
  fromDate : String := ""
  toDate : String := ""
  cursor : String := ""

/-- The `queryBase` of the email getAll branch: each filter attached only when
its input is truthy. -/
def emailQueryBase (p : EmailGetAllParams) : List (String × Json) :=
  (if p.recipients ≠ "" then [("recipients", Json.str p.recipients)] else []) ++
    (if p.fromDate ≠ "" then [("from", Json.str p.fromDate)] else []) ++
    (if p.toDate ≠ "" then [("to", Json.str p.toDate)] else [])

/-- The `do/while` cursor loop of the email getAll `returnAll` branch, with
fuel.  `cursor` is the JavaScript value of the `cursor` variable (`Json.null`
standing for `undefined`); each response's `pagination.next_cursor` becomes
the cursor of the next iteration, and the loop stops when that value is falsy
(absent, `null`, or the empty string). -/
def emailFetchAllLoop (server : Server) (queryBase : List (String × Json)) :
    Nat → Nat → Json → List Json → List Request →
    Option (List Request × Except String (List Json))
  | 0, _, _, _, _ => none
  | fuel + 1, count, cursor, entries, reqs =>
    let qs := queryBase ++ [("per_page", Json.num 100)] ++
      (if jsTruthy cursor then [("cursor", cursor)] else [])
    match server count with
    | Except.error msg => some (reqs ++ [⟨"GET", "/emails", [], qs⟩], Except.error msg)
    | Except.ok response =>
      let entries := entries ++ getResponseList response "emails"
      let nextCursor := (getPagination response).get "next_cursor"
      if jsTruthy nextCursor then
        emailFetchAllLoop server queryBase fuel (count + 1) nextCursor entries
          (reqs ++ [⟨"GET", "/emails", [], qs⟩])
      else
        some (reqs ++ [⟨"GET", "/emails", [], qs⟩], Except.ok entries)

/-- The email getAll branch of `Lettr.execute`: a single page honoring
`per_page = limit` when `returnAll` is false, else the exhaustive cursor loop
(`startingCursor || undefined` seeding the cursor), followed by the
simplify/envelope output step. -/
def emailGetAll (server : Server) (p : EmailGetAllParams) (itemIndex : Nat)
    (fuel : Nat) : Option (List Request × Except NodeError (List Output)) :=
  let queryBase := emailQueryBase p
  if !p.returnAll then
    let qs := queryBase ++ [("per_page", Json.num p.limit)] ++
      (if p.cursor ≠ "" then [("cursor", Json.str p.cursor)] else [])
    some (match server 0 with
      | Except.error msg =>
        ([⟨"GET", "/emails", [], qs⟩], Except.error (NodeError.api msg itemIndex))
      | Except.ok response =>
        if !p.simplify then
          ([⟨"GET", "/emails", [], qs⟩], Except.ok [Output.mk response itemIndex])
        else
          ([⟨"GET", "/emails", [], qs⟩],
            Except.ok ((getResponseList response "emails").map
              (fun entry => Output.mk entry itemIndex))))
  else
    match emailFetchAllLoop server queryBase fuel 0
        (if p.cursor ≠ "" then Json.str p.cursor else Json.null) [] [] with
    | none => none
    | some (reqs, Except.error msg) =>
      some (reqs, Except.error (NodeError.api msg itemIndex))
    | some (reqs, Except.ok entries) =>
      if !p.simplify then
        some (reqs, Except.ok
          [Output.mk (Json.obj [("data", Json.obj [("emails", Json.arr entries)])]) itemIndex])
      else
        some (reqs, Except.ok (entries.map (fun entry => Output.mk entry itemIndex)))

/-- JavaScript `Number(x)` on the values the pagination code meets, as an
`Option Int`: `none` models `NaN` (property access on non-numeric objects,
arrays, or non-numeric strings; `Number` of a numeric string is not modelled
since the API reports page counters as numbers). -/
def jsNumberQ : Json → Option Int
  | Json.num n => some n
  | Json.bool b => some (if b then 1 else 0)
  | Json.null => some 0
  | _ => none

/-- The `currentPage`/`lastPage` pair computed from one template-list
response: `currentPage = Number(pagination.current_page ?? page)` and
`lastPage = Number(pagination.last_page ?? currentPage)`, where `page` is the
locally requested page number and `none` models a `NaN` coercion. -/
def pageCounters (response : Json) (page : Int) : Option Int × Option Int :=
  let pagination := getPagination response
  let currentPage : Option Int :=
    match pagination.get "current_page" with
    | Json.null => some page
    | j => jsNumberQ j
  let lastPage : Option Int :=
    match pagination.get "last_page" with
    | Json.null => currentPage
    | j => jsNumberQ j
  (currentPage, lastPage)

/-- Parameters of the template getAll operation. -/
structure TemplateGetAllParams where
  returnAll : Bool
  simplify : Bool := true
  limit : Int := 50
  projectId : Int := 0
  page : Int := 1

/-- The `while (hasMore)` page loop of the template getAll `returnAll`
branch, with fuel.  `currentPage` is `Number(pagination.current_page ?? page)`
and `lastPage` is `Number(pagination.last_page ?? currentPage)`; the loop
continues while `currentPage < lastPage` and requests `currentPage + 1` next
(a `NaN` comparison is false, so a `NaN` page number stops the loop and the
`page = currentPage + 1` assignment is never read). -/
def templateFetchAllLoop (server : Server) (queryBase : List (String × Json)) :
    Nat → Nat → Int → List Json → List Request →
    Option (List Request × Except String (List Json))
  | 0, _, _, _, _ => none
  | fuel + 1, count, page, entries, reqs =>
    let qs := queryBase ++ [("per_page", Json.num 100), ("page", Json.num page)]
    match server count with
    | Except.error msg => some (reqs ++ [⟨"GET", "/templates", [], qs⟩], Except.error msg)
    | Except.ok response =>
      let entries := entries ++ getResponseList response "templates"
      match pageCounters response page with
      | (some c, some l) =>
        if c < l then
          templateFetchAllLoop server queryBase fuel (count + 1) (c + 1) entries
            (reqs ++ [⟨"GET", "/templates", [], qs⟩])
        else some (reqs ++ [⟨"GET", "/templates", [], qs⟩], Except.ok entries)
      | _ => some (reqs ++ [⟨"GET", "/templates", [], qs⟩], Except.ok entries)

/-- The template getAll branch of `Lettr.execute`: a single page honoring
`per_page = limit`/`page = startingPage` when `returnAll` is false, else the
exhaustive page loop starting at `Math.max(1, startingPage)`, followed by the
simplify/envelope output step. -/
def templateGetAll (server : Server) (p : TemplateGetAllParams) (itemIndex : Nat)
    (fuel : Nat) : Option (List Request × Except NodeError (List Output)) :=
  let queryBase := if p.projectId > 0 then [("project_id", Json.num p.projectId)] else []
  if !p.returnAll then
    let qs := queryBase ++ [("per_page", Json.num p.limit), ("page", Json.num p.page)]
    some (match server 0 with
      | Except.error msg =>
        ([⟨"GET", "/templates", [], qs⟩], Except.error (NodeError.api msg itemIndex))
      | Except.ok response =>
        if !p.simplify then
          ([⟨"GET", "/templates", [], qs⟩], Except.ok [Output.mk response itemIndex])
        else
          ([⟨"GET", "/templates", [], qs⟩],
            Except.ok ((getResponseList response "templates").map
              (fun entry => Output.mk entry itemIndex))))
  else
    match templateFetchAllLoop server queryBase fuel 0 (max 1 p.page) [] [] with
    | none => none
    | some (reqs, Except.error msg) =>
      some (reqs, Except.error (NodeError.api msg itemIndex))
    | some (reqs, Except.ok entries) =>
      if !p.simplify then
        some (reqs, Except.ok
          [Output.mk (Json.obj [("data", Json.obj [("templates", Json.arr entries)])]) itemIndex])
      else
        some (reqs, Except.ok (entries.map (fun entry => Output.mk entry itemIndex)))

/-- JavaScript `list.slice(0, limit)`: the first `limit` items for a
non-negative `limit`, all but the last `-limit` items for a negative one. -/
def jsSlice0 (xs : List Json) (limit : Int) : List Json :=
  if 0 ≤ limit then xs.take limit.toNat
  else xs.take (xs.length - (-limit).toNat)

/-- The domain getAll and webhook getAll branches of `Lettr.execute`, which
are textually identical up to the endpoint and list key: one full-list GET
with no query, client-side `slice(0, limit)` truncation when `returnAll` is
false, then the simplify/envelope output step (the envelope spreads the
original response and overrides its list field with the truncated list). -/
def fullListGetAll (server : Server) (endpoint : String) (key : String)
    (returnAll : Bool) (limit : Int) (simplify : Bool) (itemIndex : Nat) :
    List Request × Except NodeError (List Output) :=
  match server 0 with
  | Except.error msg =>
    ([⟨"GET", endpoint, [], []⟩], Except.error (NodeError.api msg itemIndex))
  | Except.ok response =>
    let list := getResponseList response key
    let outputList := if returnAll then list else jsSlice0 list limit
    if !simplify then
      let outputResponse := response.objSet "data"
        ((getResponseData response).objSet key (Json.arr outputList))
      ([⟨"GET", endpoint, [], []⟩], Except.ok [Output.mk outputResponse itemIndex])
    else
      ([⟨"GET", endpoint, [], []⟩],
        Except.ok (outputList.map (fun entry => Output.mk entry itemIndex)))

/-- One (resource, operation) pair together with the parameters its branch of
`Lettr.execute` reads.  The source's chain of string comparisons on
`resource`/`operation` is exhaustive and mutually exclusive over these six
pairs; any other pair produces no output and issues no request. -/
inductive ItemOp where
  | emailSend (p : EmailSendParams)
  | emailGet (requestId : String)
  | emailGetAll (p : EmailGetAllParams)
  | domainGetAll (returnAll : Bool) (limit : Int) (simplify : Bool)
  | templateGetAll (p : TemplateGetAllParams)
  | webhookGetAll (returnAll : Bool) (limit : Int) (simplify : Bool)

/-- The execution environment of one item: the host's `JSON.parse` and the
upstream server (indexed by how many requests the item has issued so far). -/
structure Env where
  jsonParse : String → Option Json
  server : Server

/-- One iteration of the item loop of `Lettr.execute` (the body of the `try`):
dispatch on resource/operation and return the issued requests and either the
item's output records or the raised error.  `none` means a pagination loop ran
out of fuel. -/
def runItem (fuel : Nat) (env : Env) (op : ItemOp) (itemIndex : Nat) :
    Option (List Request × Except NodeError (List Output)) :=
  match op with
  | ItemOp.emailSend p => some (emailSend env.jsonParse env.server p itemIndex)
  | ItemOp.emailGet requestId => some (emailGet env.server requestId itemIndex)
  | ItemOp.emailGetAll p => emailGetAll env.server p itemIndex fuel
  | ItemOp.domainGetAll returnAll limit simplify =>
    some (fullListGetAll env.server "/domains" "domains" returnAll limit simplify itemIndex)
  | ItemOp.templateGetAll p => templateGetAll env.server p itemIndex fuel
  | ItemOp.webhookGetAll returnAll limit simplify =>
    some (fullListGetAll env.server "/webhooks" "webhooks" returnAll limit simplify itemIndex)

/-- One input item of a batch: its operation and its environment (each item's
requests are answered by its own server oracle). -/
structure ItemSpec where
  env : Env
  op : ItemOp

/-- The item loop of `Lettr.execute` with its `try/catch`: items are processed
in order with consecutive indices; a failed item either aborts the whole batch
(rethrow) or, when `continueOnFail()` is true, contributes the single record
`(error : message)` paired to its index and processing continues.  `none`
means some item's pagination loop ran out of fuel. -/
def runBatch (fuel : Nat) (continueOnFail : Bool) :
    List ItemSpec → Nat → Option (Except NodeError (List Output))
  | [], _ => some (Except.ok [])
  | item :: rest, itemIndex =>
    match runItem fuel item.env item.op itemIndex with
    | none => none
    | some (_, Except.ok outs) =>
      match runBatch fuel continueOnFail rest (itemIndex + 1) with
      | none => none
      | some (Except.ok outs') => some (Except.ok (outs ++ outs'))
      | some (Except.error e) => some (Except.error e)
    | some (_, Except.error e) =>
      if continueOnFail then
        match runBatch fuel continueOnFail rest (itemIndex + 1) with
        | none => none
        | some (Except.ok outs') =>
          some (Except.ok (Output.mk (Json.obj [("error", Json.str e.message)]) itemIndex :: outs'))
        | some (Except.error e') => some (Except.error e')
      else some (Except.error e)

/-! ### Fixtures: mock server responses used by the concrete scenarios -/

/-- An email-list envelope: a page of `entries` with an optional
`pagination.next_cursor` token. -/
def emailPage (entries : List Json) (nextCursor : Option String) : Json :=
  Json.obj [("data", Json.obj ([("emails", Json.arr entries)] ++
    (match nextCursor with
     | some c => [("pagination", Json.obj [("next_cursor", Json.str c)])]
     | none => [])))]

/-- A template-list envelope: a page of `entries` with optional
`pagination.current_page` / `pagination.last_page` counters. -/
def templatePage (entries : List Json) (cur last : Option Int) : Json :=
  Json.obj [("data", Json.obj [("templates", Json.arr entries),
    ("pagination", Json.obj
      ((match cur with
        | some c => [("current_page", Json.num c)]
        | none => []) ++
       (match last with
        | some l => [("last_page", Json.num l)]
        | none => [])))])]

/-- A three-page mock email server: `next_cursor` tokens on the first two
pages, none on the third. -/
def emailSrv3 : Server := fun n =>
  Except.ok
    (if n = 0 then emailPage [Json.num 1, Json.num 2] (some "c1")
     else if n = 1 then emailPage [Json.num 3] (some "c2")
     else emailPage [Json.num 4, Json.num 5] none)

/-- Spec-side refinement target for C7: the wire-field names of the optional
send fields the caller explicitly supplied, in the order the send branch
attaches them. -/
def suppliedSendKeys (p : EmailSendParams) : List String :=
  (if p.html ≠ "" then ["html"] else []) ++
    (if p.text ≠ "" then ["text"] else []) ++
    (if p.templateSlug ≠ "" then ["template_slug"] else []) ++
    (if p.additionalFields.fromName ≠ "" then ["from_name"] else []) ++
    (if p.additionalFields.replyTo ≠ "" then ["reply_to"] else []) ++
    (if p.additionalFields.replyToName ≠ "" then ["reply_to_name"] else []) ++
    (if p.additionalFields.ampHtml ≠ "" then ["amp_html"] else []) ++
    (if p.additionalFields.projectId ≠ 0 then ["project_id"] else []) ++
    (if p.additionalFields.templateVersion ≠ 0 then ["template_version"] else []) ++
    (if p.additionalFields.campaignId ≠ 0 then ["campaign_id"] else []) ++
    (if p.additionalFields.cc ≠ "" then ["cc"] else []) ++
    (if p.additionalFields.bcc ≠ "" then ["bcc"] else []) ++
    (if p.additionalFields.metadataJson ≠ "" then ["metadata"] else []) ++
    (if p.additionalFields.substitutionDataJson ≠ "" then ["substitution_data"] else []) ++
    (if p.additionalFields.optionsJson ≠ "" then ["options"] else []) ++
    (if p.additionalFields.attachmentsJson ≠ "" then ["attachments"] else [])

/-- The body `buildSendBody` produces when it succeeds, with `v1`–`v4` the
parsed values of the metadata, substitution-data, options and attachments
JSON fields (used only when the corresponding input is non-empty). -/
def sendBodyFields (p : EmailSendParams) (toList : List String)
    (v1 v2 v3 v4 : Json) : List (String × Json) :=
  [("from", Json.str p.fromEmail), ("to", Json.arr (toList.map Json.str)),
   ("subject", Json.str p.subject)] ++
    (if p.html ≠ "" then [("html", Json.str p.html)] else []) ++
    (if p.text ≠ "" then [("text", Json.str p.text)] else []) ++
    (if p.templateSlug ≠ "" then [("template_slug", Json.str p.templateSlug)] else []) ++
    (if p.additionalFields.fromName ≠ "" then
      [("from_name", Json.str p.additionalFields.fromName)] else []) ++
    (if p.additionalFields.replyTo ≠ "" then
      [("reply_to", Json.str p.additionalFields.replyTo)] else []) ++
    (if p.additionalFields.replyToName ≠ "" then
      [("reply_to_name", Json.str p.additionalFields.replyToName)] else []) ++
    (if p.additionalFields.ampHtml ≠ "" then
      [("amp_html", Json.str p.additionalFields.ampHtml)] else []) ++
    (if p.additionalFields.projectId ≠ 0 then
      [("project_id", Json.num p.additionalFields.projectId)] else []) ++
    (if p.additionalFields.templateVersion ≠ 0 then
      [("template_version", Json.num p.additionalFields.templateVersion)] else []) ++
    (if p.additionalFields.campaignId ≠ 0 then
      [("campaign_id", Json.num p.additionalFields.campaignId)] else []) ++
    (if p.additionalFields.cc ≠ "" then
      [("cc", Json.arr ((splitRecipientList p.additionalFields.cc).map Json.str))]
    else []) ++
    (if p.additionalFields.bcc ≠ "" then
      [("bcc", Json.arr ((splitRecipientList p.additionalFields.bcc).map Json.str))]
    else []) ++
    (if p.additionalFields.metadataJson ≠ "" then [("metadata", v1)] else []) ++
    (if p.additionalFields.substitutionDataJson ≠ "" then
      [("substitution_data", v2)] else []) ++
    (if p.additionalFields.optionsJson ≠ "" then [("options", v3)] else []) ++
    (if p.additionalFields.attachmentsJson ≠ "" then [("attachments", v4)] else [])

/-- A template-list response after which the page loop cannot continue: its
envelope either reports numeric page counters with
`current_page ≥ last_page`, or carries neither counter (in particular, when
it has no pagination object at all). -/
def pageLoopDone (r : Json) : Prop :=
  ((getPagination r).get "current_page" = Json.null ∧
      (getPagination r).get "last_page" = Json.null) ∨
    ∃ c l : Int, (getPagination r).get "current_page" = Json.num c ∧
      (getPagination r).get "last_page" = Json.num l ∧ l ≤ c

theorem emailPage_list (entries : List Json) (nc : Option String) :
    getResponseList (emailPage entries nc) "emails" = entries := by
  cases nc <;> rfl

theorem emailPage_next_cursor_some (entries : List Json) (c : String) :
    (getPagination (emailPage entries (some c))).get "next_cursor" = Json.str c := rfl

theorem emailPage_next_cursor_none (entries : List Json) :
    (getPagination (emailPage entries none)).get "next_cursor" = Json.null := rfl

theorem templatePage_list (entries : List Json) (cur last : Option Int) :
    getResponseList (templatePage entries cur last) "templates" = entries := rfl

theorem templatePage_current (entries : List Json) (c : Int) (last : Option Int) :
    (getPagination (templatePage entries (some c) last)).get "current_page" = Json.num c := by
  cases last <;> rfl

theorem templatePage_last (entries : List Json) (cur : Option Int) (l : Int) :
    (getPagination (templatePage entries cur (some l))).get "last_page" = Json.num l := by
  cases cur <;> rfl

theorem templatePage_counters (entries : List Json) (c l page : Int) :
    pageCounters (templatePage entries (some c) (some l)) page = (some c, some l) := rfl

/-! ### Claims -/

/-- Claim C1: the exhaustive cursor fetch of the email getAll branch issues
one GET /emails per page with `per_page = 100`, threads each response's
`pagination.next_cursor` into the `cursor` query field of the next request,
and stops exactly when that token is absent or empty: against a server
returning `next_cursor` tokens `c1`, `c2` on its first two pages and omitting
the token on the third, exactly 3 requests are issued and the three pages'
`emails` entries are concatenated in server order. -/
theorem C1_email_cursor_exhaustive_fetch (e1 e2 e3 : List Json) (c1 c2 : String)
    (qb : List (String × Json)) (hc1 : c1 ≠ "") (hc2 : c2 ≠ "") :
    emailFetchAllLoop
      (fun n => Except.ok
        (if n = 0 then emailPage e1 (some c1)
         else if n = 1 then emailPage e2 (some c2)
         else emailPage e3 none))
      qb 3 0 Json.null [] [] =
    some ([⟨"GET", "/emails", [], qb ++ [("per_page", Json.num 100)]⟩,
           ⟨"GET", "/emails", [], qb ++ [("per_page", Json.num 100), ("cursor", Json.str c1)]⟩,
           ⟨"GET", "/emails", [], qb ++ [("per_page", Json.num 100), ("cursor", Json.str c2)]⟩],
          Except.ok (e1 ++ e2 ++ e3)) := by
  simp [emailFetchAllLoop, emailPage_list, emailPage_next_cursor_some,
    emailPage_next_cursor_none, jsTruthy, hc1, hc2]

/-- Claim C1 witness: the scenario at a concrete instantiation. -/
theorem C1_email_cursor_exhaustive_fetch_witness :
    emailFetchAllLoop
      (fun n => Except.ok
        (if n = 0 then emailPage [Json.num 1, Json.num 2] (some "c1")
         else if n = 1 then emailPage [Json.num 3] (some "c2")
         else emailPage [Json.num 4, Json.num 5] none))
      [] 3 0 Json.null [] [] =
    some ([⟨"GET", "/emails", [], [("per_page", Json.num 100)]⟩,
           ⟨"GET", "/emails", [], [("per_page", Json.num 100), ("cursor", Json.str "c1")]⟩,
           ⟨"GET", "/emails", [], [("per_page", Json.num 100), ("cursor", Json.str "c2")]⟩],
          Except.ok [Json.num 1, Json.num 2, Json.num 3, Json.num 4, Json.num 5]) := by
  have h := C1_email_cursor_exhaustive_fetch [Json.num 1, Json.num 2] [Json.num 3]
    [Json.num 4, Json.num 5] "c1" "c2" [] (by decide) (by decide)
  simpa using h

/-- Claim C2: the exhaustive page fetch of the template getAll branch stops
when the server-reported `current_page` reaches `last_page`, and the next
request's `page` is the server's `current_page + 1` rather than a locally
incremented counter: (a) against responses reporting `(1,3)`, `(2,3)`,
`(3,3)`, exactly 3 requests are issued, at pages 1, 2 and 3; (b) against a
renumbering server reporting `(5,6)` then `(6,6)` to a loop that requested an
arbitrary page `p`, the second request asks for page 6 (= 5 + 1), not
`p + 1`. -/
theorem C2_template_page_exhaustive_fetch (t1 t2 t3 u1 u2 : List Json)
    (qb : List (String × Json)) (p : Int) :
    templateFetchAllLoop
      (fun n => Except.ok
        (if n = 0 then templatePage t1 (some 1) (some 3)
         else if n = 1 then templatePage t2 (some 2) (some 3)
         else templatePage t3 (some 3) (some 3)))
      qb 3 0 1 [] [] =
    some ([⟨"GET", "/templates", [], qb ++ [("per_page", Json.num 100), ("page", Json.num 1)]⟩,
           ⟨"GET", "/templates", [], qb ++ [("per_page", Json.num 100), ("page", Json.num 2)]⟩,
           ⟨"GET", "/templates", [], qb ++ [("per_page", Json.num 100), ("page", Json.num 3)]⟩],
          Except.ok (t1 ++ t2 ++ t3)) ∧
    templateFetchAllLoop
      (fun n => Except.ok
        (if n = 0 then templatePage u1 (some 5) (some 6)
         else templatePage u2 (some 6) (some 6)))
      qb 2 0 p [] [] =
    some ([⟨"GET", "/templates", [], qb ++ [("per_page", Json.num 100), ("page", Json.num p)]⟩,
           ⟨"GET", "/templates", [], qb ++ [("per_page", Json.num 100), ("page", Json.num 6)]⟩],
          Except.ok (u1 ++ u2)) := by
  constructor <;>
    simp [templateFetchAllLoop, templatePage_list, templatePage_counters]

/-- Claim C2 witness: both scenarios at a concrete instantiation. -/
theorem C2_template_page_exhaustive_fetch_witness :
    templateFetchAllLoop
      (fun n => Except.ok
        (if n = 0 then templatePage [Json.num 1] (some 1) (some 3)
         else if n = 1 then templatePage [Json.num 2] (some 2) (some 3)
         else templatePage [Json.num 3] (some 3) (some 3)))
      [] 3 0 1 [] [] =
    some ([⟨"GET", "/templates", [], [("per_page", Json.num 100), ("page", Json.num 1)]⟩,
           ⟨"GET", "/templates", [], [("per_page", Json.num 100), ("page", Json.num 2)]⟩,
           ⟨"GET", "/templates", [], [("per_page", Json.num 100), ("page", Json.num 3)]⟩],
          Except.ok [Json.num 1, Json.num 2, Json.num 3]) := by
  have h := (C2_template_page_exhaustive_fetch [Json.num 1] [Json.num 2] [Json.num 3]
    [] [] [] 1).1
  simpa using h

/-- Claim C3: for an exhaustive (`returnAll = true`) email cursor fetch whose
loop accumulated `entries`, `simplify = false` yields exactly one output
record shaped `data.emails = entries` — a synthesized envelope carrying no
pagination metadata — while `simplify = true` yields one output record per
accumulated entry, in order.  The parameters `lim rec fd td cur` are the
limit, recipients, fromDate, toDate and cursor parameters. -/
theorem C3_email_exhaustive_simplify (server : Server) (fuel idx : Nat)
    (reqs : List Request) (entries : List Json) (lim : Int) (rec fd td cur : String)
    (hloop : emailFetchAllLoop server
      (emailQueryBase ⟨true, true, lim, rec, fd, td, cur⟩) fuel 0
      (if cur ≠ "" then Json.str cur else Json.null) [] [] =
      some (reqs, Except.ok entries)) :
    emailGetAll server ⟨true, false, lim, rec, fd, td, cur⟩ idx fuel =
      some (reqs, Except.ok
        [Output.mk (Json.obj [("data", Json.obj [("emails", Json.arr entries)])]) idx]) ∧
    emailGetAll server ⟨true, true, lim, rec, fd, td, cur⟩ idx fuel =
      some (reqs, Except.ok (entries.map (fun entry => Output.mk entry idx))) := by
  constructor <;> simp [emailGetAll, emailQueryBase] at hloop ⊢ <;> simp [hloop]

/-- Claim C3 witness: the two output shapes at a concrete three-page
scenario. -/
theorem C3_email_exhaustive_simplify_witness :
    emailGetAll emailSrv3 ⟨true, false, 50, "", "", "", ""⟩ 7 3 =
      some ([⟨"GET", "/emails", [], [("per_page", Json.num 100)]⟩,
             ⟨"GET", "/emails", [], [("per_page", Json.num 100), ("cursor", Json.str "c1")]⟩,
             ⟨"GET", "/emails", [], [("per_page", Json.num 100), ("cursor", Json.str "c2")]⟩],
        Except.ok
          [Output.mk (Json.obj [("data", Json.obj [("emails",
            Json.arr [Json.num 1, Json.num 2, Json.num 3, Json.num 4, Json.num 5])])]) 7]) ∧
    emailGetAll emailSrv3 ⟨true, true, 50, "", "", "", ""⟩ 7 3 =
      some ([⟨"GET", "/emails", [], [("per_page", Json.num 100)]⟩,
             ⟨"GET", "/emails", [], [("per_page", Json.num 100), ("cursor", Json.str "c1")]⟩,
             ⟨"GET", "/emails", [], [("per_page", Json.num 100), ("cursor", Json.str "c2")]⟩],
        Except.ok
          [Output.mk (Json.num 1) 7, Output.mk (Json.num 2) 7, Output.mk (Json.num 3) 7,
           Output.mk (Json.num 4) 7, Output.mk (Json.num 5) 7]) := by
  have h := C3_email_exhaustive_simplify emailSrv3 3 7
    [⟨"GET", "/emails", [], [("per_page", Json.num 100)]⟩,
     ⟨"GET", "/emails", [], [("per_page", Json.num 100), ("cursor", Json.str "c1")]⟩,
     ⟨"GET", "/emails", [], [("per_page", Json.num 100), ("cursor", Json.str "c2")]⟩]
    [Json.num 1, Json.num 2, Json.num 3, Json.num 4, Json.num 5] 50 "" "" "" "" rfl
  exact ⟨h.1, by rw [h.2]; rfl⟩

/-- Claim C4: the domain and webhook getAll branches always issue exactly one
full-list GET with no query string (the limit never constrains the request),
and with `returnAll = false` the already-fetched list is truncated client-side
to its first `limit` items, unmodified and in server order: (a) for any
response and flags, the request trace of both branches is the single
query-less GET of its endpoint; (b) with `returnAll = false`, `simplify =
true` and `0 ≤ limit`, the outputs are exactly the first `limit` entries of
the response's list; (c) concretely, `limit = 2` against a 5-item domain list
yields exactly the first 2 items. -/
theorem C4_full_list_getAll_truncates_client_side :
    (∀ (server : Server) (returnAll simplify : Bool) (lim : Int) (idx : Nat),
      (fullListGetAll server "/domains" "domains" returnAll lim simplify idx).1 =
        [⟨"GET", "/domains", [], []⟩] ∧
      (fullListGetAll server "/webhooks" "webhooks" returnAll lim simplify idx).1 =
        [⟨"GET", "/webhooks", [], []⟩]) ∧
    (∀ (response : Json) (endpoint key : String) (lim : Int) (idx : Nat), 0 ≤ lim →
      fullListGetAll (fun _ => Except.ok response) endpoint key false lim true idx =
        ([⟨"GET", endpoint, [], []⟩],
          Except.ok (((getResponseList response key).take lim.toNat).map
            (fun entry => Output.mk entry idx)))) ∧
    fullListGetAll
      (fun _ => Except.ok (Json.obj [("data", Json.obj [("domains",
        Json.arr [Json.num 1, Json.num 2, Json.num 3, Json.num 4, Json.num 5])])]))
      "/domains" "domains" false 2 true 0 =
      ([⟨"GET", "/domains", [], []⟩],
        Except.ok [Output.mk (Json.num 1) 0, Output.mk (Json.num 2) 0]) := by
  refine ⟨?_, ?_, by rfl⟩
  · intro server returnAll simplify lim idx
    constructor <;>
      (rcases hs : server 0 with msg | response <;> cases simplify <;>
        simp [fullListGetAll, hs])
  · intro response endpoint key lim idx hlim
    simp [fullListGetAll, jsSlice0, hlim]

/-- Claim C4 witness: the general parts at a concrete instantiation. -/
theorem C4_full_list_getAll_truncates_client_side_witness :
    (fullListGetAll (fun _ => Except.ok (Json.obj [])) "/domains" "domains" true 50 true 0).1 =
      [⟨"GET", "/domains", [], []⟩] ∧
    fullListGetAll
      (fun _ => Except.ok (Json.obj [("data", Json.obj [("webhooks",
        Json.arr [Json.num 1, Json.num 2, Json.num 3])])]))
      "/webhooks" "webhooks" false 2 true 4 =
      ([⟨"GET", "/webhooks", [], []⟩],
        Except.ok [Output.mk (Json.num 1) 4, Output.mk (Json.num 2) 4]) :=
  ⟨(C4_full_list_getAll_truncates_client_side.1
      (fun _ => Except.ok (Json.obj [])) true true 50 0).1,
   by rw [C4_full_list_getAll_truncates_client_side.2.1
       (Json.obj [("data", Json.obj [("webhooks",
         Json.arr [Json.num 1, Json.num 2, Json.num 3])])])
       "/webhooks" "webhooks" 2 4 (by decide)]
      rfl⟩

/-- Claim C5: each of the three send validation failures — none of
HTML/Text/Template Slug given, recipient list empty after parsing, and
malformed JSON in a free-text JSON field — raises a `NodeOperationError`
carrying the originating item's index while the request trace is still empty,
i.e. strictly before any HTTP request is issued for that item. -/
theorem C5_send_validation_before_any_request :
    (∀ (jp : String → Option Json) (server : Server) (p : EmailSendParams) (idx : Nat),
      p.html = "" → p.text = "" → p.templateSlug = "" →
      emailSend jp server p idx =
        ([], Except.error (NodeError.operation
          "Provide at least one of: HTML, Text, or Template Slug." idx))) ∧
    (∀ (jp : String → Option Json) (server : Server) (p : EmailSendParams) (idx : Nat),
      p.html ≠ "" → splitRecipientList p.toInput = [] →
      emailSend jp server p idx =
        ([], Except.error (NodeError.operation
          "\"To\" must contain at least one valid recipient." idx))) ∧
    (∀ (jp : String → Option Json) (server : Server) (p : EmailSendParams) (idx : Nat),
      p.html ≠ "" → splitRecipientList p.toInput ≠ [] →
      p.additionalFields.metadataJson ≠ "" →
      jp p.additionalFields.metadataJson = none →
      emailSend jp server p idx =
        ([], Except.error (NodeError.operation
          "\"Metadata (JSON)\" must be valid JSON when provided." idx))) := by
  refine ⟨?_, ?_, ?_⟩
  · intro jp server p idx h1 h2 h3
    simp [emailSend, h1, h2, h3]
  · intro jp server p idx h1 h2
    simp [emailSend, h1, h2]
  · intro jp server p idx h1 h2 h3 h4
    simp [emailSend, buildSendBody, parseOptionalJson, h1, h2, h3, h4,
      Bind.bind, Except.bind]

/-- Claim C5 witness: the three failures at concrete inputs. -/
theorem C5_send_validation_before_any_request_witness :
    emailSend (fun _ => none) (fun _ => Except.ok Json.null)
      ⟨"s@x.com", "a@x.com", "hi", "", "", "", {}⟩ 2 =
      ([], Except.error (NodeError.operation
        "Provide at least one of: HTML, Text, or Template Slug." 2)) ∧
    emailSend (fun _ => none) (fun _ => Except.ok Json.null)
      ⟨"s@x.com", " ; , ", "hi", "<p>x</p>", "", "", {}⟩ 3 =
      ([], Except.error (NodeError.operation
        "\"To\" must contain at least one valid recipient." 3)) ∧
    emailSend (fun _ => none) (fun _ => Except.ok Json.null)
      ⟨"s@x.com", "a@x.com", "hi", "<p>x</p>", "", "",
        { metadataJson := "not json" }⟩ 4 =
      ([], Except.error (NodeError.operation
        "\"Metadata (JSON)\" must be valid JSON when provided." 4)) :=
  ⟨C5_send_validation_before_any_request.1 (fun _ => none)
      (fun _ => Except.ok Json.null) ⟨"s@x.com", "a@x.com", "hi", "", "", "", {}⟩ 2
      rfl rfl rfl,
   C5_send_validation_before_any_request.2.1 (fun _ => none)
      (fun _ => Except.ok Json.null) ⟨"s@x.com", " ; , ", "hi", "<p>x</p>", "", "", {}⟩ 3
      (by decide) (by decide),
   C5_send_validation_before_any_request.2.2 (fun _ => none)
      (fun _ => Except.ok Json.null)
      ⟨"s@x.com", "a@x.com", "hi", "<p>x</p>", "", "", { metadataJson := "not json" }⟩ 4
      (by decide) (by decide) (by decide) rfl⟩

/-- Claim C6: when `continueOnFail()` is true, an item whose processing raises
any error `e` — validation or transport — contributes exactly one output
record shaped `error = e.message` paired to that item's index, and the batch
continues with the subsequent items' outputs; when it is false, the first
error aborts the whole batch with that error. -/
theorem C6_continue_on_fail (fuel idx : Nat) (item : ItemSpec) (rest : List ItemSpec)
    (reqs : List Request) (e : NodeError) (outs : List Output)
    (hitem : runItem fuel item.env item.op idx = some (reqs, Except.error e))
    (hrest : runBatch fuel true rest (idx + 1) = some (Except.ok outs)) :
    runBatch fuel true (item :: rest) idx =
      some (Except.ok (Output.mk (Json.obj [("error", Json.str e.message)]) idx :: outs)) ∧
    runBatch fuel false (item :: rest) idx = some (Except.error e) := by
  constructor <;> simp [runBatch, hitem, hrest]

/-- Claim C6 witness: a two-item batch whose first item fails send validation;
with `continueOnFail` the error record is followed by the second item's
output, without it the batch aborts with the validation error. -/
theorem C6_continue_on_fail_witness :
    runBatch 1 true
      [⟨⟨fun _ => none, fun _ => Except.ok Json.null⟩,
         ItemOp.emailSend ⟨"s@x.com", "a@x.com", "hi", "", "", "", {}⟩⟩,
       ⟨⟨fun _ => none, fun _ => Except.ok (Json.num 9)⟩, ItemOp.emailGet "r1"⟩] 0 =
      some (Except.ok
        [Output.mk (Json.obj [("error",
           Json.str "Provide at least one of: HTML, Text, or Template Slug.")]) 0,
         Output.mk (Json.num 9) 1]) ∧
    runBatch 1 false
      [⟨⟨fun _ => none, fun _ => Except.ok Json.null⟩,
         ItemOp.emailSend ⟨"s@x.com", "a@x.com", "hi", "", "", "", {}⟩⟩,
       ⟨⟨fun _ => none, fun _ => Except.ok (Json.num 9)⟩, ItemOp.emailGet "r1"⟩] 0 =
      some (Except.error (NodeError.operation
        "Provide at least one of: HTML, Text, or Template Slug." 0)) := by
  have h := C6_continue_on_fail 1 0
    ⟨⟨fun _ => none, fun _ => Except.ok Json.null⟩,
      ItemOp.emailSend ⟨"s@x.com", "a@x.com", "hi", "", "", "", {}⟩⟩
    [⟨⟨fun _ => none, fun _ => Except.ok (Json.num 9)⟩, ItemOp.emailGet "r1"⟩]
    [] (NodeError.operation "Provide at least one of: HTML, Text, or Template Slug." 0)
    [Output.mk (Json.num 9) 1] rfl rfl
  exact ⟨h.1, h.2⟩

/-- Claim C8: `splitRecipientList` splits its input on commas, semicolons and
newlines, trims whitespace from each token and drops the empty tokens; on the
example address list (with a literal newline) it returns the four
addresses, and no input ever yields an empty token. -/
theorem C8_splitRecipientList :
    splitRecipientList "a@x.com, b@x.com;c@x.com\nd@x.com" =
      ["a@x.com", "b@x.com", "c@x.com", "d@x.com"] ∧
    ∀ s : String, "" ∉ splitRecipientList s := by
  refine ⟨by decide, ?_⟩
  intro s h
  simp [splitRecipientList, List.mem_filter] at h

/-- Claim C8 witness: the theorem's universally quantified no-empty-token
property at a concrete separator-only input. -/
theorem C8_splitRecipientList_witness :
    splitRecipientList "a@x.com, b@x.com;c@x.com\nd@x.com" =
      ["a@x.com", "b@x.com", "c@x.com", "d@x.com"] ∧
    "" ∉ splitRecipientList ",;" :=
  ⟨C8_splitRecipientList.1, C8_splitRecipientList.2 ",;"⟩

/-- Claim C9 counterexample: with `returnAll = false`, `simplify = true` and
`limit = 1`, the email getAll branch sends `per_page = 1` but does not
truncate the response client-side, so a server whose single response carries
2 entries produces 2 output records — exceeding the caller's limit.  The
claim's bound fails for this server response. -/
theorem C9_limit_not_enforced_counterexample :
    emailGetAll
      (fun _ => Except.ok (Json.obj [("data", Json.obj
        [("emails", Json.arr [Json.num 1, Json.num 2])])]))
      ⟨false, true, 1, "", "", "", ""⟩ 0 1 =
      some ([⟨"GET", "/emails", [], [("per_page", Json.num 1)]⟩],
        Except.ok [Output.mk (Json.num 1) 0, Output.mk (Json.num 2) 0]) ∧
    ¬ ([Output.mk (Json.num 1) 0, Output.mk (Json.num 2) 0].length ≤ (1 : Int).toNat) :=
  ⟨rfl, by decide⟩

/-- Claim C9 (amended): with `returnAll = false` and `simplify = true`, the
email and template single-page fetches forward the caller's `limit` as the
`per_page` query parameter of their one request, and the outputs are exactly
the entries of the server's single response; the output count therefore
respects the limit exactly when the server returns at most `limit`
entries (no client-side truncation is applied, unlike the domain/webhook
branches). -/
theorem C9_single_page_limit_via_per_page (response : Json) (idx : Nat)
    (lim pid pg : Int) (rec fd td cur : String) :
    emailGetAll (fun _ => Except.ok response) ⟨false, true, lim, rec, fd, td, cur⟩ idx 1 =
      some ([⟨"GET", "/emails", [],
          emailQueryBase ⟨false, true, lim, rec, fd, td, cur⟩ ++
            [("per_page", Json.num lim)] ++
            (if cur ≠ "" then [("cursor", Json.str cur)] else [])⟩],
        Except.ok ((getResponseList response "emails").map
          (fun entry => Output.mk entry idx))) ∧
    templateGetAll (fun _ => Except.ok response) ⟨false, true, lim, pid, pg⟩ idx 1 =
      some ([⟨"GET", "/templates", [],
          (if pid > 0 then [("project_id", Json.num pid)] else []) ++
            [("per_page", Json.num lim), ("page", Json.num pg)]⟩],
        Except.ok ((getResponseList response "templates").map
          (fun entry => Output.mk entry idx))) ∧
    (∀ n : Nat, (getResponseList response "emails").length ≤ n →
      ((getResponseList response "emails").map
        (fun entry => Output.mk entry idx)).length ≤ n) := by
  refine ⟨by simp [emailGetAll], by simp [templateGetAll], ?_⟩
  intro n hn
  simpa using hn

/-- Claim C9 (amended) witness: the per_page forwarding and entry-count bound
at a concrete response. -/
theorem C9_single_page_limit_via_per_page_witness :
    emailGetAll
      (fun _ => Except.ok (Json.obj [("data", Json.obj
        [("emails", Json.arr [Json.num 7])])]))
      ⟨false, true, 50, "", "", "", ""⟩ 0 1 =
      some ([⟨"GET", "/emails", [], [("per_page", Json.num 50)]⟩],
        Except.ok [Output.mk (Json.num 7) 0]) ∧
    (1 : Nat) ≤ 50 := by
  have h := C9_single_page_limit_via_per_page
    (Json.obj [("data", Json.obj [("emails", Json.arr [Json.num 7])])]) 0 50 0 1 "" "" "" ""
  exact ⟨by rw [h.1]; rfl, h.2.2 50 (by decide)⟩

/-- Helper for C10: a response whose envelope carries neither page counter
yields `currentPage = page` (the locally requested page) and
`lastPage = currentPage`. -/
theorem pageCounters_default (r : Json) (page : Int)
    (hc : (getPagination r).get "current_page" = Json.null)
    (hl : (getPagination r).get "last_page" = Json.null) :
    pageCounters r page = (some page, some page) := by
  simp [pageCounters, hc, hl]

/-- Helper for C10: the page loop stops right after the request at index
`count` whenever that request's response satisfies `pageLoopDone`. -/
theorem templateFetchAllLoop_step_done (server : Server) (qb : List (String × Json))
    (fuel count : Nat) (page : Int) (entries : List Json) (reqs : List Request)
    (r : Json) (hs : server count = Except.ok r) (hdone : pageLoopDone r) :
    templateFetchAllLoop server qb (fuel + 1) count page entries reqs =
      some (reqs ++ [⟨"GET", "/templates", [],
          qb ++ [("per_page", Json.num 100), ("page", Json.num page)]⟩],
        Except.ok (entries ++ getResponseList r "templates")) := by
  rcases hdone with ⟨hc, hl⟩ | ⟨c, l, hc, hl, hle⟩
  · simp [templateFetchAllLoop, hs, pageCounters_default r page hc hl]
  · simp [templateFetchAllLoop, hs, pageCounters, hc, hl, jsNumberQ, not_lt.mpr hle]

/-- Helper for C10: whenever the `n`-th response of the request sequence
satisfies `pageLoopDone`, the page loop terminates from any state that still
reaches index `n` within its fuel. -/
theorem templateFetchAllLoop_terminates (server : Server) (qb : List (String × Json))
    (n : Nat) (r : Json) (hs : server n = Except.ok r) (hdone : pageLoopDone r) :
    ∀ (fuel count : Nat) (page : Int) (entries : List Json) (reqs : List Request),
      count ≤ n → n < count + fuel →
      (templateFetchAllLoop server qb fuel count page entries reqs).isSome := by
  intro fuel
  induction fuel with
  | zero => intro count page entries reqs h1 h2; omega
  | succ f ih =>
    intro count page entries reqs h1 h2
    by_cases hcn : count = n
    · subst hcn
      rw [templateFetchAllLoop_step_done server qb f count page entries reqs r hs hdone]
      rfl
    · have hlt : count < n := lt_of_le_of_ne h1 hcn
      simp only [templateFetchAllLoop]
      rcases hsc : server count with msg | resp
      · rfl
      · dsimp only
        rcases hpc : pageCounters resp page with ⟨cur, last⟩
        rcases cur with _ | c
        · rfl
        · rcases last with _ | l
          · rfl
          · by_cases hcl : c < l
            · simpa [hcl] using ih (count + 1) (c + 1)
                (entries ++ getResponseList resp "templates")
                (reqs ++ [⟨"GET", "/templates", [],
                  qb ++ [("per_page", Json.num 100), ("page", Json.num page)]⟩])
                (by omega) (by omega)
            · simp [hcl]

/-- Claim C10: (a) if a template-list response's envelope lacks both
`current_page` and `last_page` (in particular, if it has no pagination object
at all), the loop defaults `current_page` to the locally requested page and
`last_page` to `current_page`, so the exhaustive page fetch terminates right
after that request; (b) consequently the page loop terminates — returns a
result instead of exhausting any sufficiently large fuel — whenever some
response of the request sequence reports `current_page ≥ last_page` or omits
the page counters. -/
theorem C10_page_loop_defaults_terminate :
    (∀ (server : Server) (qb : List (String × Json)) (fuel count : Nat) (page : Int)
      (entries : List Json) (reqs : List Request) (r : Json),
      server count = Except.ok r →
      (getPagination r).get "current_page" = Json.null →
      (getPagination r).get "last_page" = Json.null →
      templateFetchAllLoop server qb (fuel + 1) count page entries reqs =
        some (reqs ++ [⟨"GET", "/templates", [],
            qb ++ [("per_page", Json.num 100), ("page", Json.num page)]⟩],
          Except.ok (entries ++ getResponseList r "templates"))) ∧
    (∀ (server : Server) (qb : List (String × Json)) (n : Nat) (r : Json),
      server n = Except.ok r → pageLoopDone r →
      ∀ (page : Int), (templateFetchAllLoop server qb (n + 1) 0 page [] []).isSome) := by
  constructor
  · intro server qb fuel count page entries reqs r hs hc hl
    exact templateFetchAllLoop_step_done server qb fuel count page entries reqs r hs
      (Or.inl ⟨hc, hl⟩)
  · intro server qb n r hs hdone page
    exact templateFetchAllLoop_terminates server qb n r hs hdone (n + 1) 0 page [] []
      (Nat.zero_le n) (by omega)

/-- Claim C10 witness: a pagination-free response terminates the loop after
one request, and a server reporting `current_page ≥ last_page` on its third
response is fully consumed within fuel 3. -/
theorem C10_page_loop_defaults_terminate_witness :
    templateFetchAllLoop
      (fun _ => Except.ok (Json.obj [("data", Json.obj
        [("templates", Json.arr [Json.num 8])])]))
      [] 1 0 1 [] [] =
      some ([⟨"GET", "/templates", [],
          [("per_page", Json.num 100), ("page", Json.num 1)]⟩],
        Except.ok [Json.num 8]) ∧
    (templateFetchAllLoop
      (fun n => Except.ok
        (if n = 0 then templatePage [Json.num 1] (some 1) (some 3)
         else if n = 1 then templatePage [Json.num 2] (some 2) (some 3)
         else templatePage [Json.num 3] (some 3) (some 3)))
      [] 3 0 1 [] []).isSome := by
  constructor
  · exact C10_page_loop_defaults_terminate.1
      (fun _ => Except.ok (Json.obj [("data", Json.obj
        [("templates", Json.arr [Json.num 8])])]))
      [] 0 0 1 [] []
      (Json.obj [("data", Json.obj [("templates", Json.arr [Json.num 8])])])
      rfl rfl rfl
  · exact C10_page_loop_defaults_terminate.2
      (fun n => Except.ok
        (if n = 0 then templatePage [Json.num 1] (some 1) (some 3)
         else if n = 1 then templatePage [Json.num 2] (some 2) (some 3)
         else templatePage [Json.num 3] (some 3) (some 3)))
      [] 2 (templatePage [Json.num 3] (some 3) (some 3)) rfl
      (Or.inr ⟨3, 3, by rw [templatePage_current], by rw [templatePage_last], le_refl 3⟩) 1

/-- Helper for C7: when each supplied free-text JSON field parses (to
`v1`–`v4` respectively), the body assembly succeeds and yields
`sendBodyFields`. -/
theorem buildSendBody_ok (jp : String → Option Json) (p : EmailSendParams)
    (toList : List String) (idx : Nat) (v1 v2 v3 v4 : Json)
    (h1 : p.additionalFields.metadataJson ≠ "" →
      jp p.additionalFields.metadataJson = some v1)
    (h2 : p.additionalFields.substitutionDataJson ≠ "" →
      jp p.additionalFields.substitutionDataJson = some v2)
    (h3 : p.additionalFields.optionsJson ≠ "" →
      jp p.additionalFields.optionsJson = some v3)
    (h4 : p.additionalFields.attachmentsJson ≠ "" →
      jp p.additionalFields.attachmentsJson = some v4) :
    buildSendBody jp p toList idx =
      Except.ok (sendBodyFields p toList v1 v2 v3 v4) := by
  by_cases hm1 : p.additionalFields.metadataJson = "" <;>
    by_cases hm2 : p.additionalFields.substitutionDataJson = "" <;>
      by_cases hm3 : p.additionalFields.optionsJson = "" <;>
        by_cases hm4 : p.additionalFields.attachmentsJson = "" <;>
          simp [buildSendBody, sendBodyFields, parseOptionalJson, bind, Except.bind,
            pure, Except.pure, hm1, hm2, hm3, hm4, h1, h2, h3, h4]

/-- Claim C7: for every valid send input (some content field set, a non-empty
parsed recipient list, each supplied free-text JSON field parsing), the POST
/emails request carries exactly the assembled body; its keys are the three
required fields followed by precisely the optional fields the caller supplied
(`suppliedSendKeys`) — no supplied field dropped, no unsupplied field present
— the `to` field is the split recipient list, and the `cc`/`bcc` fields are
present exactly when supplied, split by the same `splitRecipientList`. -/
theorem C7_send_body_exact_supplied_fields (jp : String → Option Json)
    (server : Server) (p : EmailSendParams) (idx : Nat) (v1 v2 v3 v4 : Json)
    (hvalid : ¬(p.html = "" ∧ p.text = "" ∧ p.templateSlug = ""))
    (hrcpt : splitRecipientList p.toInput ≠ [])
    (h1 : p.additionalFields.metadataJson ≠ "" →
      jp p.additionalFields.metadataJson = some v1)
    (h2 : p.additionalFields.substitutionDataJson ≠ "" →
      jp p.additionalFields.substitutionDataJson = some v2)
    (h3 : p.additionalFields.optionsJson ≠ "" →
      jp p.additionalFields.optionsJson = some v3)
    (h4 : p.additionalFields.attachmentsJson ≠ "" →
      jp p.additionalFields.attachmentsJson = some v4) :
    (emailSend jp server p idx).1 =
      [⟨"POST", "/emails",
        sendBodyFields p (splitRecipientList p.toInput) v1 v2 v3 v4, []⟩] ∧
    (sendBodyFields p (splitRecipientList p.toInput) v1 v2 v3 v4).map Prod.fst =
      ["from", "to", "subject"] ++ suppliedSendKeys p ∧
    (sendBodyFields p (splitRecipientList p.toInput) v1 v2 v3 v4).filter
        (fun f => f.1 = "to") =
      [("to", Json.arr ((splitRecipientList p.toInput).map Json.str))] ∧
    (sendBodyFields p (splitRecipientList p.toInput) v1 v2 v3 v4).filter
        (fun f => f.1 = "cc") =
      (if p.additionalFields.cc ≠ "" then
        [("cc", Json.arr ((splitRecipientList p.additionalFields.cc).map Json.str))]
      else []) ∧
    (sendBodyFields p (splitRecipientList p.toInput) v1 v2 v3 v4).filter
        (fun f => f.1 = "bcc") =
      (if p.additionalFields.bcc ≠ "" then
        [("bcc", Json.arr ((splitRecipientList p.additionalFields.bcc).map Json.str))]
      else []) := by
  have hb := buildSendBody_ok jp p (splitRecipientList p.toInput) idx v1 v2 v3 v4
    h1 h2 h3 h4
  refine ⟨?_, ?_, ?_, ?_, ?_⟩
  · rcases hs : server 0 with msg | resp <;> simp [emailSend, hvalid, hrcpt, hb, hs]
  · simp [sendBodyFields, suppliedSendKeys,
      apply_ite (List.map (Prod.fst (α := String) (β := Json)))]
  · simp [sendBodyFields, List.filter_append,
      apply_ite (List.filter (fun f : String × Json => f.1 = "to"))]
  · simp [sendBodyFields, List.filter_append,
      apply_ite (List.filter (fun f : String × Json => f.1 = "cc"))]
  · simp [sendBodyFields, List.filter_append,
      apply_ite (List.filter (fun f : String × Json => f.1 = "bcc"))]

/-- Claim C7 witness: a send with html, cc and metadata supplied carries
exactly those optional fields, with cc split like to. -/
theorem C7_send_body_exact_supplied_fields_witness :
    (emailSend (fun _ => some (Json.obj [("k", Json.num 1)]))
      (fun _ => Except.ok Json.null)
      ⟨"s@x.com", "a@x.com", "hi", "<p>x</p>", "", "",
        { cc := "b@x.com; c@x.com", metadataJson := "m" }⟩ 5).1 =
      [⟨"POST", "/emails",
        [("from", Json.str "s@x.com"), ("to", Json.arr [Json.str "a@x.com"]),
         ("subject", Json.str "hi"), ("html", Json.str "<p>x</p>"),
         ("cc", Json.arr [Json.str "b@x.com", Json.str "c@x.com"]),
         ("metadata", Json.obj [("k", Json.num 1)])], []⟩] ∧
    [("from", Json.str "s@x.com"), ("to", Json.arr [Json.str "a@x.com"]),
     ("subject", Json.str "hi"), ("html", Json.str "<p>x</p>"),
     ("cc", Json.arr [Json.str "b@x.com", Json.str "c@x.com"]),
     ("metadata", Json.obj [("k", Json.num 1)])].map Prod.fst =
      ["from", "to", "subject", "html", "cc", "metadata"] := by
  have h := C7_send_body_exact_supplied_fields
    (fun _ => some (Json.obj [("k", Json.num 1)])) (fun _ => Except.ok Json.null)
    ⟨"s@x.com", "a@x.com", "hi", "<p>x</p>", "", "",
      { cc := "b@x.com; c@x.com", metadataJson := "m" }⟩ 5
    (Json.obj [("k", Json.num 1)]) Json.null Json.null Json.null
    (by simp) (by decide)
    (fun _ => rfl) (fun hc => absurd rfl hc) (fun hc => absurd rfl hc)
    (fun hc => absurd rfl hc)
  exact ⟨by rw [h.1]; rfl, by decide⟩

end Lettr
